import Mathlib

/-!
Shallow embedding of the schema-introspection-and-session-cache subsystem of
`src/main_bot.py` (FastAPI "Bot & Database API"), together with proofs about
its claims.

The two module-level Python dicts `db_connections` and `session_schemas` are
modelled as insertion-ordered association lists with unique keys (Python dict
semantics: assignment to an existing key replaces the value in place,
assignment to a fresh key appends at the end, `del` removes the entry).
Network backends (asyncpg / aiomysql / motor) are modelled as explicit
environments describing what each wire-protocol call would return, so every
handler becomes a pure function of the request, the backend environment and
the registry state.
-/

namespace BotDB

/-! ## Python-dict model: insertion-ordered association lists -/

/-- First-match lookup, `m[k]` / `m.get(k)`. -/
def mapLookup {α : Type} (m : List (String × α)) (k : String) : Option α :=
  match m with
  | [] => none
  | (k', v) :: rest => if k' = k then some v else mapLookup rest k

/-- Python dict assignment `m[k] = v`: replace in place if the key exists,
append at the end otherwise. -/
def mapInsert {α : Type} (m : List (String × α)) (k : String) (v : α) :
    List (String × α) :=
  match m with
  | [] => [(k, v)]
  | (k', v') :: rest =>
      if k' = k then (k, v) :: rest else (k', v') :: mapInsert rest k v

/-- Python `del m[k]` (removes the first occurrence of the key). -/
def mapErase {α : Type} (m : List (String × α)) (k : String) :
    List (String × α) :=
  match m with
  | [] => []
  | (k', v') :: rest => if k' = k then rest else (k', v') :: mapErase rest k

/-- Python `k in m`. -/
def mapContains {α : Type} (m : List (String × α)) (k : String) : Bool :=
  (mapLookup m k).isSome

/-- Python `list(m.keys())` (insertion order). -/
def mapKeys {α : Type} (m : List (String × α)) : List String :=
  m.map Prod.fst

/-- The effect of `mapInsert` on the key list, as a pure function of keys. -/
def insertKey (ks : List String) (k : String) : List String :=
  match ks with
  | [] => [k]
  | k' :: rest => if k' = k then k :: rest else k' :: insertKey rest k

/-- The effect of `mapErase` on the key list, as a pure function of keys. -/
def eraseKey (ks : List String) (k : String) : List String :=
  match ks with
  | [] => []
  | k' :: rest => if k' = k then rest else k' :: eraseKey rest k

/-! ## Data model -/

/-- The `DatabaseConnection` pydantic model (`src/main_bot.py` lines 36-43). -/
structure DatabaseConnection where
  host : String
  port : Int
  username : String
  password : String
  schema : String
  tableNames : List String
  dbtype : String
deriving Repr, DecidableEq

/-- One normalized column record as built by every connector: a dict with the
five keys `column_name`, `data_type`, `is_nullable`, `default_value`,
`max_length`. -/
structure ColumnInfo where
  column_name : String
  data_type : String
  is_nullable : String
  default_value : Option String
  max_length : Option Int
deriving Repr, DecidableEq

/-- A generic JSON-like value, for the dynamic `Dict[str, List[Dict[str, Any]]]`
payload of `POST /setsessionSchema`. -/
inductive JValue where
  | null
  | bool (b : Bool)
  | num (n : Int)
  | str (s : String)
  | arr (xs : List JValue)
  | obj (fields : List (String × JValue))

/-- A value stored in `session_schemas`: PostgreSQL stores a two-level map
(schema name → table name → columns), MySQL and MongoDB store a flat map
(table/collection name → columns), and `setsessionSchema` stores the raw
user payload. -/
inductive Schema where
  | pg (m : List (String × List (String × List ColumnInfo)))
  | flat (m : List (String × List ColumnInfo))
  | user (m : List (String × JValue))

/-- An `HTTPException(status_code=..., detail=...)`; rendered by the exception
handler as `{error: detail, status_code}`. -/
structure HErr where
  status_code : Nat
  detail : String
deriving Repr, DecidableEq

/-- The two module-level registries (`src/main_bot.py` lines 46-47). -/
structure RegState where
  db_connections : List (String × DatabaseConnection)
  session_schemas : List (String × Schema)

/-- The initial (empty) registry state. -/
def initState : RegState := { db_connections := [], session_schemas := [] }

/-! ## Shared SQL column normalization -/

/-- Embeds `str(x) if x else None` applied to a backend-reported default
value, which the information-schema protocols deliver as a string or NULL.
`str` on a string is the identity; Python truthiness makes both `None` and
the empty string falsy, so both map to `None`. -/
def pyStrDefault : Option String → Option String
  | none => none
  | some s => if s = "" then none else some s

/-- One row of the relational column-metadata query (`column_name`,
`data_type`, `is_nullable`, default value, maximum character length), as
delivered by the backend ordered by ordinal position. -/
structure SqlColumnRow where
  column_name : String
  data_type : String
  is_nullable : String
  column_default : Option String
  character_maximum_length : Option Int
deriving Repr, DecidableEq

/-- The identical list comprehensions at `src/main_bot.py` lines 181-190
(PostgreSQL) and 255-264 (MySQL): one normalized record per backend row, in
backend (ordinal) order. -/
def normalizeSqlColumns (rows : List SqlColumnRow) : List ColumnInfo :=
  rows.map fun col =>
    { column_name := col.column_name
      data_type := col.data_type
      is_nullable := col.is_nullable
      default_value := pyStrDefault col.column_default
      max_length := col.character_maximum_length }

/-! ## PostgreSQL connector -/

/-- Behaviour of a PostgreSQL server once connected: what each metadata
query returns (`.error` = the query raises an `asyncpg.PostgresError`).
The schemata query excludes `pg_catalog` and `information_schema`
server-side, so its result list is already filtered. -/
structure PgConnData where
  schemataResult : Except String (List String)
  tablesResult : String → Except String (List String)
  columnsResult : String → String → Except String (List SqlColumnRow)

/-- A PostgreSQL backend as seen by `connect_postgresql`: either
`asyncpg.connect` itself raises, or it yields a connection behaving as the
given `PgConnData`. -/
inductive PgBackend where
  | connectError (msg : String)
  | connected (c : PgConnData)

/-- Inner loop of `connect_postgresql` (lines 165-191): for each table of one
schema, fetch its columns and store the normalized list under the table
name. -/
def pgTablesLoop (c : PgConnData) (schemaName : String) :
    List String → List (String × List ColumnInfo) →
    Except String (List (String × List ColumnInfo))
  | [], acc => .ok acc
  | t :: rest, acc =>
      match c.columnsResult schemaName t with
      | .error e => .error e
      | .ok rows =>
          pgTablesLoop c schemaName rest (mapInsert acc t (normalizeSqlColumns rows))

/-- Outer loop of `connect_postgresql` (lines 153-191): for each schema, list
its base tables, then fill in the per-table column map. -/
def pgSchemasLoop (c : PgConnData) :
    List String → List (String × List (String × List ColumnInfo)) →
    Except String (List (String × List (String × List ColumnInfo)))
  | [], acc => .ok acc
  | s :: rest, acc =>
      match c.tablesResult s with
      | .error e => .error e
      | .ok tableNames =>
          match pgTablesLoop c s tableNames [] with
          | .error e => .error e
          | .ok tinfo => pgSchemasLoop c rest (mapInsert acc s tinfo)

/-- Introspection phase of `connect_postgresql` after the connection
succeeded (lines 142-191). -/
def pgIntrospect (c : PgConnData) :
    Except String (List (String × List (String × List ColumnInfo))) :=
  match c.schemataResult with
  | .error e => .error e
  | .ok schemaNames => pgSchemasLoop c schemaNames []

/-- Body of a successful `/connectDB` response. -/
structure ConnectResponse where
  status : String
  session_id : String
  schema_info : Schema

/-- Observable outcome of one connector call: the HTTP-level result, the
registry state left behind, whether a backend connection was opened, and
whether it was closed again (the `finally` block). -/
structure ConnectorResult where
  result : Except HErr ConnectResponse
  state : RegState
  opened : Bool
  closed : Bool

/-- `f"{connection.host}:{connection.port}:{connection.schema}"` (lines 193,
267, 328). -/
def sessionIdOf (connection : DatabaseConnection) : String :=
  connection.host ++ ":" ++ toString connection.port ++ ":" ++ connection.schema

/-- Session storage (lines 193-195 / 267-269 / 328-330): both registries are
assigned under the derived id, unconditionally overwriting. -/
def storeSession (st : RegState) (session_id : String)
    (connection : DatabaseConnection) (schema : Schema) : RegState :=
  { db_connections := mapInsert st.db_connections session_id connection
    session_schemas := mapInsert st.session_schemas session_id schema }

/-- `connect_postgresql` (lines 126-210). The `finally` block closes the
connection whenever one was assigned, on success and on error alike; when
`asyncpg.connect` itself raises, `conn` is still `None` and nothing is
closed. A failure anywhere is surfaced as HTTP 500 with the
`PostgreSQL error: ` prefix, and no registry mutation happens because lines
193-195 run only after the whole introspection succeeded. -/
def connect_postgresql (connection : DatabaseConnection) (backend : PgBackend)
    (st : RegState) : ConnectorResult :=
  match backend with
  | .connectError msg =>
      { result := .error ⟨500, "PostgreSQL error: " ++ msg⟩
        state := st, opened := false, closed := false }
  | .connected c =>
      match pgIntrospect c with
      | .error msg =>
          { result := .error ⟨500, "PostgreSQL error: " ++ msg⟩
            state := st, opened := true, closed := true }
      | .ok table_info =>
          let session_id := sessionIdOf connection
          { result := .ok { status := "success", session_id := session_id
                            schema_info := .pg table_info }
            state := storeSession st session_id connection (.pg table_info)
            opened := true, closed := true }

/-! ## MySQL connector -/

/-- Behaviour of a MySQL server once connected. `showTablesResult` holds the
table names extracted from the `SHOW TABLES` rows (the code takes the first
value of each single-column row dict, line 230); `columnsResult` is the
aliased information-schema column query for one table (`.error` = the call
raises an `aiomysql.Error`). -/
structure MyConnData where
  showTablesResult : Except String (List String)
  columnsResult : String → Except String (List SqlColumnRow)

/-- A MySQL backend as seen by `connect_mysql`: either `aiomysql.connect`
itself raises, or it yields a connection behaving as the given
`MyConnData`. -/
inductive MyBackend where
  | connectError (msg : String)
  | connected (c : MyConnData)

/-- Loop of `connect_mysql` (lines 236-265): for each table, fetch its
columns and store the normalized list under the table name. -/
def myTablesLoop (c : MyConnData) :
    List String → List (String × List ColumnInfo) →
    Except String (List (String × List ColumnInfo))
  | [], acc => .ok acc
  | t :: rest, acc =>
      match c.columnsResult t with
      | .error e => .error e
      | .ok rows => myTablesLoop c rest (mapInsert acc t (normalizeSqlColumns rows))

/-- `connect_mysql` (lines 212-284). Same shape as the PostgreSQL connector:
failure anywhere gives HTTP 500 with the `MySQL error: ` prefix, registry
untouched; the `finally` block closes the connection iff one was
assigned. -/
def connect_mysql (connection : DatabaseConnection) (backend : MyBackend)
    (st : RegState) : ConnectorResult :=
  match backend with
  | .connectError msg =>
      { result := .error ⟨500, "MySQL error: " ++ msg⟩
        state := st, opened := false, closed := false }
  | .connected c =>
      match c.showTablesResult with
      | .error msg =>
          { result := .error ⟨500, "MySQL error: " ++ msg⟩
            state := st, opened := true, closed := true }
      | .ok tableNames =>
          match myTablesLoop c tableNames [] with
          | .error msg =>
              { result := .error ⟨500, "MySQL error: " ++ msg⟩
                state := st, opened := true, closed := true }
          | .ok table_info =>
              let session_id := sessionIdOf connection
              { result := .ok { status := "success", session_id := session_id
                                schema_info := .flat table_info }
                state := storeSession st session_id connection (.flat table_info)
                opened := true, closed := true }

/-! ## MongoDB connector -/

/-- A sampled BSON value, carrying just enough structure to compute
`type(value).__name__` (line 315). -/
inductive BsonValue where
  | objectId
  | str (s : String)
  | int (n : Int)
  | float
  | bool (b : Bool)
  | null
  | arr
  | doc
deriving Repr, DecidableEq

/-- `type(value).__name__` for a sampled BSON value as deserialized by
pymongo/motor. -/
def BsonValue.typeName : BsonValue → String
  | .objectId => "ObjectId"
  | .str _ => "str"
  | .int _ => "int"
  | .float => "float"
  | .bool _ => "bool"
  | .null => "NoneType"
  | .arr => "list"
  | .doc => "dict"

/-- Behaviour of a MongoDB deployment behind a constructed client:
`serverInfoResult` is the liveness handshake (line 297),
`listCollectionsResult` enumerates the collections of the target database,
and `findOneResult` is the one-document sample per collection (`.ok none` =
the collection is empty). -/
structure MongoClientData where
  serverInfoResult : Except String Unit
  listCollectionsResult : Except String (List String)
  findOneResult : String → Except String (Option (List (String × BsonValue)))

/-- A MongoDB backend as seen by `connect_mongodb`: either the
`AsyncIOMotorClient` constructor itself raises (e.g. a malformed URI), in
which case `client` stays `None`, or it yields a client behaving as the
given `MongoClientData`. -/
inductive MongoBackend where
  | clientError (msg : String)
  | client (c : MongoClientData)

/-- The list comprehension at lines 312-321: one record per key of the
sampled document, `data_type` the runtime type name, `is_nullable` always
the string `YES`, no default value, no max length. -/
def mongoColumns (doc : List (String × BsonValue)) : List ColumnInfo :=
  doc.map fun kv =>
    { column_name := kv.1
      data_type := kv.2.typeName
      is_nullable := "YES"
      default_value := none
      max_length := none }

/-- Loop of `connect_mongodb` (lines 305-326). The code tests the sampled
document with `if sample_doc:`; a sampled empty document is falsy in Python
and takes the else branch, but since `mongoColumns [] = []` equals the else
value `[]`, testing the `Option` is observationally identical. -/
def mongoCollLoop (c : MongoClientData) :
    List String → List (String × List ColumnInfo) →
    Except String (List (String × List ColumnInfo))
  | [], acc => .ok acc
  | name :: rest, acc =>
      match c.findOneResult name with
      | .error e => .error e
      | .ok sampleDoc =>
          mongoCollLoop c rest (mapInsert acc name
            (match sampleDoc with
              | some doc => mongoColumns doc
              | none => []))

/-- `connect_mongodb` (lines 286-345). Any exception is caught by the blanket
`except Exception` and surfaced as HTTP 500 with the
`MongoDB connection error: ` prefix; the registry is mutated only after the
whole collection loop succeeded; the `finally` block closes the client iff
the constructor succeeded. -/
def connect_mongodb (connection : DatabaseConnection) (backend : MongoBackend)
    (st : RegState) : ConnectorResult :=
  match backend with
  | .clientError msg =>
      { result := .error ⟨500, "MongoDB connection error: " ++ msg⟩
        state := st, opened := false, closed := false }
  | .client c =>
      match c.serverInfoResult with
      | .error msg =>
          { result := .error ⟨500, "MongoDB connection error: " ++ msg⟩
            state := st, opened := true, closed := true }
      | .ok _ =>
          match c.listCollectionsResult with
          | .error msg =>
              { result := .error ⟨500, "MongoDB connection error: " ++ msg⟩
                state := st, opened := true, closed := true }
          | .ok collectionNames =>
              match mongoCollLoop c collectionNames [] with
              | .error msg =>
                  { result := .error ⟨500, "MongoDB connection error: " ++ msg⟩
                    state := st, opened := true, closed := true }
              | .ok table_info =>
                  let session_id := sessionIdOf connection
                  { result := .ok { status := "success", session_id := session_id
                                    schema_info := .flat table_info }
                    state := storeSession st session_id connection (.flat table_info)
                    opened := true, closed := true }

/-! ## Dispatch layer -/

/-- Python `str.lower()`, mapped over the character sequence. -/
def pyLower (s : String) : String := ⟨s.data.map Char.toLower⟩

/-- Python `str.strip()`: remove leading and trailing whitespace. -/
def pyStrip (s : String) : String :=
  ⟨((s.data.dropWhile Char.isWhitespace).reverse.dropWhile
      Char.isWhitespace).reverse⟩

/-- The three backend environments a `/connectDB` call might talk to. -/
structure Backends where
  pg : PgBackend
  my : MyBackend
  mongo : MongoBackend

/-- `connect_database` (lines 102-124): normalize the declared type with
`.lower().strip()`, dispatch to the matching connector, otherwise raise
HTTP 400 naming the raw declared type and listing the supported set. The
outer `except` re-raises `HTTPException`s unchanged. -/
def connect_database (connection : DatabaseConnection) (backends : Backends)
    (st : RegState) : ConnectorResult :=
  let dbtype := pyStrip (pyLower connection.dbtype)
  if dbtype = "postgresql" then connect_postgresql connection backends.pg st
  else if dbtype = "mysql" then connect_mysql connection backends.my st
  else if dbtype = "mongodb" then connect_mongodb connection backends.mongo st
  else
    { result := .error ⟨400, "Unsupported database type: \x27" ++ connection.dbtype
                  ++ "\x27. Supported types are: postgresql, mysql, mongodb"⟩
      state := st, opened := false, closed := false }

/-! ## Session endpoints -/

/-- Outcome of a state-mutating session endpoint. -/
structure OpResult (α : Type) where
  result : Except HErr α
  state : RegState

/-- Body of a successful `/setsessionSchema` response (lines 369-374). -/
structure SetSchemaResponse where
  status : String
  message : String
  session_id : String
  tables : List String

/-- Detail message of line 358. -/
def msgInvalidList (table_name : String) : String :=
  "Invalid schema for table " ++ table_name ++ ". Expected a list of columns."

/-- Detail message of line 362. -/
def msgInvalidColumn (table_name : String) (idx : Nat) : String :=
  "Invalid column definition at index " ++ toString idx ++ " in table " ++ table_name

/-- Detail message of line 364. -/
def msgMissingColumnName (table_name : String) (idx : Nat) : String :=
  "Missing \x27column_name\x27 in column at index " ++ toString idx
    ++ " in table " ++ table_name

/-- Inner validation loop of `set_session_schema` (lines 360-364): each entry
must be a dict (`isinstance(column, dict)`) containing the key
`column_name`; the first offender raises. `idx` is the running `enumerate`
index. -/
def validateColumns (table_name : String) :
    List JValue → Nat → Option HErr
  | [], _ => none
  | column :: rest, idx =>
      match column with
      | .obj fields =>
          if mapContains fields "column_name" then
            validateColumns table_name rest (idx + 1)
          else some ⟨400, msgMissingColumnName table_name idx⟩
      | _ => some ⟨400, msgInvalidColumn table_name idx⟩

/-- Outer validation loop of `set_session_schema` (lines 356-364): each value
must be a list (`isinstance(columns, list)`), whose entries are then checked
in order; the first offender raises. -/
def validateSchema : List (String × JValue) → Option HErr
  | [] => none
  | (table_name, v) :: rest =>
      match v with
      | .arr columns =>
          match validateColumns table_name columns 0 with
          | some e => some e
          | none => validateSchema rest
      | _ => some ⟨400, msgInvalidList table_name⟩

/-- `set_session_schema` (lines 347-381): 404 when the session id is not in
`db_connections`; otherwise validate the payload shape, raising 400 at the
first offender; only then assign `session_schemas[session_id] = schema`
wholesale. -/
def set_session_schema (session_id : String) (schema : List (String × JValue))
    (st : RegState) : OpResult SetSchemaResponse :=
  if mapContains st.db_connections session_id then
    match validateSchema schema with
    | some e => { result := .error e, state := st }
    | none =>
        { result := .ok { status := "success"
                          message := "Session schema set successfully"
                          session_id := session_id
                          tables := mapKeys schema }
          state := { st with
                     session_schemas := mapInsert st.session_schemas session_id (.user schema) } }
  else
    { result := .error ⟨404, "Session not found. Please connect to database first."⟩
      state := st }

/-- One entry of `session_details` in `GET /sessions` (lines 387-397). -/
structure SessionDetail where
  session_id : String
  dbtype : String
  host : String
  port : Int
  schema : String
  has_schema_defined : Bool

/-- Body of `GET /sessions` (lines 383-398). -/
structure SessionsResponse where
  active_sessions : List String
  session_details : List SessionDetail

/-- `get_active_sessions` (lines 383-398): read-only listing of the
registry. -/
def get_active_sessions (st : RegState) : SessionsResponse :=
  { active_sessions := mapKeys st.db_connections
    session_details := st.db_connections.map fun p =>
      { session_id := p.1
        dbtype := p.2.dbtype
        host := p.2.host
        port := p.2.port
        schema := p.2.schema
        has_schema_defined := mapContains st.session_schemas p.1 } }

/-- Body of a successful `GET /session/{session_id}/schema` response
(lines 408-416); `connection_info` is flattened into the three fields the
code projects out of the stored connection. -/
structure GetSchemaResponse where
  session_id : String
  schema : Schema
  conn_dbtype : String
  conn_host : String
  conn_schema : String

/-- `get_session_schema` (lines 400-416): 404 `Session not found` when the
id is not in `db_connections`, 404 `Session schema not defined` when it is
but has no entry in `session_schemas`, otherwise the stored schema plus
connection info. Read-only. -/
def get_session_schema (session_id : String) (st : RegState) :
    Except HErr GetSchemaResponse :=
  match mapLookup st.db_connections session_id with
  | none => .error ⟨404, "Session not found"⟩
  | some conn =>
      match mapLookup st.session_schemas session_id with
      | none => .error ⟨404, "Session schema not defined"⟩
      | some sch =>
          .ok { session_id := session_id
                schema := sch
                conn_dbtype := conn.dbtype
                conn_host := conn.host
                conn_schema := conn.schema }

/-- Body of a successful `DELETE /session/{session_id}` response
(lines 429-432). -/
structure DeleteResponse where
  status : String
  message : String

/-- `delete_session` (lines 418-432): 404 when the id is not in
`db_connections`; otherwise delete it there and, when present, in
`session_schemas` too. -/
def delete_session (session_id : String) (st : RegState) :
    OpResult DeleteResponse :=
  if mapContains st.db_connections session_id then
    { result := .ok { status := "success"
                      message := "Session " ++ session_id ++ " deleted successfully" }
      state := { db_connections := mapErase st.db_connections session_id
                 session_schemas :=
                   if mapContains st.session_schemas session_id then
                     mapErase st.session_schemas session_id
                   else st.session_schemas } }
  else
    { result := .error ⟨404, "Session not found"⟩, state := st }

/-! ## Reachable registry states -/

/-- Registry states reachable from the empty initial state through the
state-mutating public operations (the read-only endpoints do not touch the
registry). Failed operations are included: each operation contributes
whatever state it leaves behind. -/
inductive Reachable : RegState → Prop where
  | init : Reachable initState
  | connect (connection : DatabaseConnection) (backends : Backends)
      (st : RegState) : Reachable st →
      Reachable (connect_database connection backends st).state
  | setSchema (session_id : String) (schema : List (String × JValue))
      (st : RegState) : Reachable st →
      Reachable (set_session_schema session_id schema st).state
  | delete (session_id : String) (st : RegState) : Reachable st →
      Reachable (delete_session session_id st).state

/-! ## Validation of the schema-override payload -/

/-- Spec-side shape of one column entry: a dict carrying at least a
`column_name` field. -/
def columnOk (c : JValue) : Bool :=
  match c with
  | .obj fields => mapContains fields "column_name"
  | _ => false

/-- Spec-side shape of one table value: an ordered list of column-like
records. -/
def tableOk (v : JValue) : Bool :=
  match v with
  | .arr columns => columns.all columnOk
  | _ => false

/-- Spec-side well-formedness of a whole schema-override payload, following
the words of the specification (every value a list, every entry a dict with
`column_name`); compared below with the validation the code performs. -/
def schemaWellFormed (schema : List (String × JValue)) : Bool :=
  schema.all fun p => tableOk p.2

/-! ## Concrete fixtures used by the witnesses -/

/-- Backends that all fail at connection time. -/
def stubBackends : Backends :=
  { pg := .connectError "connection refused"
    my := .connectError "connection refused"
    mongo := .clientError "connection refused" }

/-- A reachable MongoDB deployment holding no collections. -/
def okMongoBackends : Backends :=
  { pg := .connectError "unused"
    my := .connectError "unused"
    mongo := .client { serverInfoResult := .ok ()
                       listCollectionsResult := .ok []
                       findOneResult := fun _ => .ok none } }

/-- A reachable MongoDB deployment with one empty collection and one
collection holding a sample document. -/
def sampleMongoClient : MongoClientData :=
  { serverInfoResult := .ok ()
    listCollectionsResult := .ok ["emptycoll", "people"]
    findOneResult := fun name =>
      if name = "people" then
        .ok (some [("_id", .objectId), ("a", .int 1), ("b", .str "x")])
      else .ok none }

/-- First connection request of the collision scenario. -/
def connA : DatabaseConnection :=
  { host := "localhost", port := 27017, username := "alice", password := "pw1"
    schema := "mydb", tableNames := [], dbtype := "mongodb" }

/-- Second connection request: same host, port and schema, different
credentials. -/
def connB : DatabaseConnection :=
  { host := "localhost", port := 27017, username := "bob", password := "pw2"
    schema := "mydb", tableNames := [], dbtype := "mongodb" }

/-- Registry holding one session, for the delete/override witnesses. -/
def oneSessionState : RegState :=
  { db_connections := [("s1", connA)]
    session_schemas := [("s1", .flat [])] }

/-! ## Lemmas about the dict model -/

theorem mapLookup_insert_self {α : Type} (m : List (String × α)) (k : String)
    (v : α) : mapLookup (mapInsert m k v) k = some v := by
  induction m with
  | nil => simp [mapInsert, mapLookup]
  | cons p rest ih =>
      obtain ⟨k', v'⟩ := p
      by_cases h : k' = k
      · simp [mapInsert, h, mapLookup]
      · simp [mapInsert, h, mapLookup, ih]

theorem mapLookup_insert_ne {α : Type} (m : List (String × α)) {k k' : String}
    (v : α) (h : k ≠ k') : mapLookup (mapInsert m k v) k' = mapLookup m k' := by
  induction m with
  | nil => simp [mapInsert, mapLookup, h]
  | cons p rest ih =>
      obtain ⟨k'', v''⟩ := p
      by_cases h2 : k'' = k
      · simp [mapInsert, h2, mapLookup, h]
      · simp [mapInsert, h2, mapLookup, ih]

theorem mapLookup_eq_none_iff {α : Type} (m : List (String × α)) (k : String) :
    mapLookup m k = none ↔ k ∉ mapKeys m := by
  induction m with
  | nil => simp [mapLookup, mapKeys]
  | cons p rest ih =>
      obtain ⟨k', v'⟩ := p
      by_cases h : k' = k
      · simp [mapLookup, h, mapKeys]
      · simp [mapLookup, h, mapKeys, ih, Ne.symm h]

theorem mem_keys_of_lookup {α : Type} {m : List (String × α)} {k : String}
    {v : α} (h : mapLookup m k = some v) : k ∈ mapKeys m := by
  by_contra hmem
  rw [← mapLookup_eq_none_iff] at hmem
  rw [h] at hmem
  exact Option.noConfusion hmem

theorem mapContains_iff_mem {α : Type} (m : List (String × α)) (k : String) :
    mapContains m k = true ↔ k ∈ mapKeys m := by
  unfold mapContains
  cases h : mapLookup m k with
  | none => simpa [h] using (mapLookup_eq_none_iff m k).mp h
  | some v => simp [Option.isSome, mem_keys_of_lookup h]

theorem mapContains_false_iff {α : Type} (m : List (String × α)) (k : String) :
    mapContains m k = false ↔ k ∉ mapKeys m := by
  rw [← mapContains_iff_mem]
  cases mapContains m k <;> simp

theorem mapKeys_insert {α : Type} (m : List (String × α)) (k : String) (v : α) :
    mapKeys (mapInsert m k v) = insertKey (mapKeys m) k := by
  induction m with
  | nil => simp [mapInsert, mapKeys, insertKey]
  | cons p rest ih =>
      obtain ⟨k', v'⟩ := p
      by_cases h : k' = k
      · simp [mapInsert, h, mapKeys, insertKey]
      · simpa [mapInsert, h, mapKeys, insertKey] using ih

theorem mapKeys_erase {α : Type} (m : List (String × α)) (k : String) :
    mapKeys (mapErase m k) = eraseKey (mapKeys m) k := by
  induction m with
  | nil => simp [mapErase, mapKeys, eraseKey]
  | cons p rest ih =>
      obtain ⟨k', v'⟩ := p
      by_cases h : k' = k
      · simp [mapErase, h, mapKeys, eraseKey]
      · simpa [mapErase, h, mapKeys, eraseKey] using ih

theorem insertKey_of_mem {ks : List String} {k : String} (h : k ∈ ks) :
    insertKey ks k = ks := by
  induction ks with
  | nil => cases h
  | cons k' rest ih =>
      by_cases h2 : k' = k
      · simp [insertKey, h2]
      · rcases List.mem_cons.mp h with h3 | h3
        · exact absurd h3.symm h2
        · simp [insertKey, h2, ih h3]

theorem mapInsert_fresh {α : Type} {m : List (String × α)} {k : String}
    (v : α) (h : k ∉ mapKeys m) : mapInsert m k v = m ++ [(k, v)] := by
  induction m with
  | nil => simp [mapInsert]
  | cons p rest ih =>
      obtain ⟨k', v'⟩ := p
      simp only [mapKeys, List.map_cons, List.mem_cons] at h
      push_neg at h
      simp [mapInsert, Ne.symm h.1, ih (by simpa [mapKeys] using h.2)]

theorem mapLookup_append_right {α : Type} (m m' : List (String × α))
    (k : String) (h : k ∉ mapKeys m) :
    mapLookup (m ++ m') k = mapLookup m' k := by
  induction m with
  | nil => simp
  | cons p rest ih =>
      obtain ⟨k', v'⟩ := p
      simp only [mapKeys, List.map_cons, List.mem_cons] at h
      push_neg at h
      simp [mapLookup, Ne.symm h.1, ih (by simpa [mapKeys] using h.2)]

theorem mapLookup_erase_self {α : Type} {m : List (String × α)} {k : String}
    (h : (mapKeys m).Nodup) : mapLookup (mapErase m k) k = none := by
  induction m with
  | nil => simp [mapErase, mapLookup]
  | cons p rest ih =>
      obtain ⟨k', v'⟩ := p
      simp only [mapKeys, List.map_cons, List.nodup_cons] at h
      by_cases h2 : k' = k
      · subst h2
        simp only [mapErase, if_pos rfl]
        exact (mapLookup_eq_none_iff rest k').mpr h.1
      · simp [mapErase, h2, mapLookup, ih h.2]

theorem mapContains_erase_self {α : Type} {m : List (String × α)} {k : String}
    (h : (mapKeys m).Nodup) : mapContains (mapErase m k) k = false := by
  simp [mapContains, mapLookup_erase_self h]

/-! ## Connector case analyses -/

theorem connect_postgresql_spec (cn : DatabaseConnection) (b : PgBackend)
    (st : RegState) :
    (∃ e bo, connect_postgresql cn b st = ⟨.error e, st, bo, bo⟩
      ∧ e.status_code = 500)
    ∨ (∃ ti, connect_postgresql cn b st =
        ⟨.ok ⟨"success", sessionIdOf cn, .pg ti⟩,
         storeSession st (sessionIdOf cn) cn (.pg ti), true, true⟩) := by
  cases b with
  | connectError msg =>
      exact Or.inl ⟨⟨500, "PostgreSQL error: " ++ msg⟩, false, rfl, rfl⟩
  | connected c =>
      cases hI : pgIntrospect c with
      | error msg =>
          refine Or.inl ⟨⟨500, "PostgreSQL error: " ++ msg⟩, true, ?_, rfl⟩
          simp [connect_postgresql, hI]
      | ok ti =>
          refine Or.inr ⟨ti, ?_⟩
          simp [connect_postgresql, hI]

theorem connect_mysql_spec (cn : DatabaseConnection) (b : MyBackend)
    (st : RegState) :
    (∃ e bo, connect_mysql cn b st = ⟨.error e, st, bo, bo⟩
      ∧ e.status_code = 500)
    ∨ (∃ ti, connect_mysql cn b st =
        ⟨.ok ⟨"success", sessionIdOf cn, .flat ti⟩,
         storeSession st (sessionIdOf cn) cn (.flat ti), true, true⟩) := by
  cases b with
  | connectError msg =>
      exact Or.inl ⟨⟨500, "MySQL error: " ++ msg⟩, false, rfl, rfl⟩
  | connected c =>
      cases hT : c.showTablesResult with
      | error msg =>
          refine Or.inl ⟨⟨500, "MySQL error: " ++ msg⟩, true, ?_, rfl⟩
          simp [connect_mysql, hT]
      | ok tableNames =>
          cases hL : myTablesLoop c tableNames [] with
          | error msg =>
              refine Or.inl ⟨⟨500, "MySQL error: " ++ msg⟩, true, ?_, rfl⟩
              simp [connect_mysql, hT, hL]
          | ok ti =>
              refine Or.inr ⟨ti, ?_⟩
              simp [connect_mysql, hT, hL]

theorem connect_mongodb_spec (cn : DatabaseConnection) (b : MongoBackend)
    (st : RegState) :
    (∃ e bo, connect_mongodb cn b st = ⟨.error e, st, bo, bo⟩
      ∧ e.status_code = 500)
    ∨ (∃ ti, connect_mongodb cn b st =
        ⟨.ok ⟨"success", sessionIdOf cn, .flat ti⟩,
         storeSession st (sessionIdOf cn) cn (.flat ti), true, true⟩) := by
  cases b with
  | clientError msg =>
      exact Or.inl ⟨⟨500, "MongoDB connection error: " ++ msg⟩, false, rfl, rfl⟩
  | client c =>
      cases hS : c.serverInfoResult with
      | error msg =>
          refine Or.inl ⟨⟨500, "MongoDB connection error: " ++ msg⟩, true, ?_, rfl⟩
          simp [connect_mongodb, hS]
      | ok u =>
          cases hC : c.listCollectionsResult with
          | error msg =>
              refine Or.inl ⟨⟨500, "MongoDB connection error: " ++ msg⟩, true, ?_, rfl⟩
              simp [connect_mongodb, hS, hC]
          | ok collectionNames =>
              cases hL : mongoCollLoop c collectionNames [] with
              | error msg =>
                  refine Or.inl ⟨⟨500, "MongoDB connection error: " ++ msg⟩, true, ?_, rfl⟩
                  simp [connect_mongodb, hS, hC, hL]
              | ok ti =>
                  refine Or.inr ⟨ti, ?_⟩
                  simp [connect_mongodb, hS, hC, hL]

theorem connect_database_spec (cn : DatabaseConnection) (b : Backends)
    (st : RegState) :
    (∃ e bo, connect_database cn b st = ⟨.error e, st, bo, bo⟩)
    ∨ (∃ r, connect_database cn b st =
        ⟨.ok r, storeSession st (sessionIdOf cn) cn r.schema_info, true, true⟩
        ∧ r.status = "success" ∧ r.session_id = sessionIdOf cn) := by
  by_cases h1 : pyStrip (pyLower cn.dbtype) = "postgresql"
  · have hd : connect_database cn b st = connect_postgresql cn b.pg st := by
      simp [connect_database, h1]
    rw [hd]
    rcases connect_postgresql_spec cn b.pg st with ⟨e, bo, h, _⟩ | ⟨ti, h⟩
    · exact Or.inl ⟨e, bo, h⟩
    · exact Or.inr ⟨⟨"success", sessionIdOf cn, .pg ti⟩, h, rfl, rfl⟩
  · by_cases h2 : pyStrip (pyLower cn.dbtype) = "mysql"
    · have hd : connect_database cn b st = connect_mysql cn b.my st := by
        simp [connect_database, h1, h2]
      rw [hd]
      rcases connect_mysql_spec cn b.my st with ⟨e, bo, h, _⟩ | ⟨ti, h⟩
      · exact Or.inl ⟨e, bo, h⟩
      · exact Or.inr ⟨⟨"success", sessionIdOf cn, .flat ti⟩, h, rfl, rfl⟩
    · by_cases h3 : pyStrip (pyLower cn.dbtype) = "mongodb"
      · have hd : connect_database cn b st = connect_mongodb cn b.mongo st := by
          simp [connect_database, h1, h2, h3]
        rw [hd]
        rcases connect_mongodb_spec cn b.mongo st with ⟨e, bo, h, _⟩ | ⟨ti, h⟩
        · exact Or.inl ⟨e, bo, h⟩
        · exact Or.inr ⟨⟨"success", sessionIdOf cn, .flat ti⟩, h, rfl, rfl⟩
      · refine Or.inl ⟨⟨400, "Unsupported database type: \x27" ++ cn.dbtype
          ++ "\x27. Supported types are: postgresql, mysql, mongodb"⟩, false, ?_⟩
        simp [connect_database, h1, h2, h3]

theorem validateColumns_none_iff (t : String) (cols : List JValue)
    (idx : Nat) : validateColumns t cols idx = none ↔ cols.all columnOk = true := by
  induction cols generalizing idx with
  | nil => simp [validateColumns]
  | cons c rest ih =>
      cases c with
      | obj fields =>
          by_cases h : mapContains fields "column_name" = true
          · simp [validateColumns, h, columnOk, ih]
          · simp [validateColumns, h, columnOk]
      | null => simp [validateColumns, columnOk]
      | bool b => simp [validateColumns, columnOk]
      | num n => simp [validateColumns, columnOk]
      | str s => simp [validateColumns, columnOk]
      | arr xs => simp [validateColumns, columnOk]

theorem validateColumns_some_shape (t : String) (cols : List JValue)
    (idx : Nat) (e : HErr) (h : validateColumns t cols idx = some e) :
    ∃ j, e = ⟨400, msgInvalidColumn t j⟩ ∨ e = ⟨400, msgMissingColumnName t j⟩ := by
  induction cols generalizing idx with
  | nil => simp [validateColumns] at h
  | cons c rest ih =>
      cases c with
      | obj fields =>
          by_cases h2 : mapContains fields "column_name" = true
          · rw [validateColumns, if_pos h2] at h
            exact ih (idx + 1) h
          · rw [validateColumns, if_neg h2] at h
            exact ⟨idx, Or.inr (Option.some.inj h).symm⟩
      | null => exact ⟨idx, Or.inl (Option.some.inj h).symm⟩
      | bool b => exact ⟨idx, Or.inl (Option.some.inj h).symm⟩
      | num n => exact ⟨idx, Or.inl (Option.some.inj h).symm⟩
      | str s => exact ⟨idx, Or.inl (Option.some.inj h).symm⟩
      | arr xs => exact ⟨idx, Or.inl (Option.some.inj h).symm⟩

theorem validateSchema_none_iff (schema : List (String × JValue)) :
    validateSchema schema = none ↔ schemaWellFormed schema = true := by
  induction schema with
  | nil => simp [validateSchema, schemaWellFormed]
  | cons p rest ih =>
      obtain ⟨t, v⟩ := p
      cases v with
      | arr columns =>
          cases hv : validateColumns t columns 0 with
          | some e =>
              have : ¬ (columns.all columnOk = true) := by
                rw [← validateColumns_none_iff t columns 0]
                simp [hv]
              simp [validateSchema, hv, schemaWellFormed, tableOk, this]
          | none =>
              have : columns.all columnOk = true :=
                (validateColumns_none_iff t columns 0).mp hv
              simpa [validateSchema, hv, schemaWellFormed, tableOk, this] using ih
      | null => simp [validateSchema, schemaWellFormed, tableOk]
      | bool b => simp [validateSchema, schemaWellFormed, tableOk]
      | num n => simp [validateSchema, schemaWellFormed, tableOk]
      | str s => simp [validateSchema, schemaWellFormed, tableOk]
      | obj fields => simp [validateSchema, schemaWellFormed, tableOk]

theorem validateSchema_some_shape (schema : List (String × JValue)) (e : HErr)
    (h : validateSchema schema = some e) :
    e.status_code = 400 ∧ ∃ t idx, t ∈ mapKeys schema ∧
      (e.detail = msgInvalidList t ∨ e.detail = msgInvalidColumn t idx
        ∨ e.detail = msgMissingColumnName t idx) := by
  induction schema with
  | nil => simp [validateSchema] at h
  | cons p rest ih =>
      obtain ⟨t, v⟩ := p
      cases v with
      | arr columns =>
          cases hv : validateColumns t columns 0 with
          | some e2 =>
              rw [validateSchema, hv] at h
              obtain ⟨j, hj⟩ := validateColumns_some_shape t columns 0 e2 hv
              obtain rfl : e2 = e := Option.some.inj h
              rcases hj with hj | hj
              · exact ⟨by rw [hj], t, j, by simp [mapKeys], Or.inr (Or.inl (by rw [hj]))⟩
              · exact ⟨by rw [hj], t, j, by simp [mapKeys], Or.inr (Or.inr (by rw [hj]))⟩
          | none =>
              rw [validateSchema, hv] at h
              obtain ⟨hst, t2, j2, hmem, hdet⟩ := ih h
              exact ⟨hst, t2, j2, by simp [mapKeys] at hmem ⊢; exact Or.inr hmem, hdet⟩
      | null =>
          obtain rfl : (⟨400, msgInvalidList t⟩ : HErr) = e := Option.some.inj h
          exact ⟨rfl, t, 0, by simp [mapKeys], Or.inl rfl⟩
      | bool b =>
          obtain rfl : (⟨400, msgInvalidList t⟩ : HErr) = e := Option.some.inj h
          exact ⟨rfl, t, 0, by simp [mapKeys], Or.inl rfl⟩
      | num n =>
          obtain rfl : (⟨400, msgInvalidList t⟩ : HErr) = e := Option.some.inj h
          exact ⟨rfl, t, 0, by simp [mapKeys], Or.inl rfl⟩
      | str s =>
          obtain rfl : (⟨400, msgInvalidList t⟩ : HErr) = e := Option.some.inj h
          exact ⟨rfl, t, 0, by simp [mapKeys], Or.inl rfl⟩
      | obj fields =>
          obtain rfl : (⟨400, msgInvalidList t⟩ : HErr) = e := Option.some.inj h
          exact ⟨rfl, t, 0, by simp [mapKeys], Or.inl rfl⟩

/-! ## Registry invariant -/

/-- Key sets of the two registries coincide in every reachable state. -/
theorem reachable_keys_eq {st : RegState} (h : Reachable st) :
    mapKeys st.db_connections = mapKeys st.session_schemas := by
  induction h with
  | init => rfl
  | connect cn b st' hr ih =>
      rcases connect_database_spec cn b st' with ⟨e, bo, hc⟩ | ⟨r, hc, _, _⟩
      · rw [hc]; exact ih
      · rw [hc]
        simp only [storeSession, mapKeys_insert]
        rw [ih]
  | setSchema sid schema st' hr ih =>
      by_cases hc : mapContains st'.db_connections sid = true
      · cases hv : validateSchema schema with
        | some e => simpa [set_session_schema, hc, hv] using ih
        | none =>
            have hmem : sid ∈ mapKeys st'.session_schemas := by
              rw [← ih]; exact (mapContains_iff_mem _ _).mp hc
            simp only [set_session_schema, hc, hv, if_true, if_pos]
            simpa [mapKeys_insert, insertKey_of_mem hmem] using ih
      · simpa [set_session_schema, hc] using ih
  | delete sid st' hr ih =>
      by_cases hc : mapContains st'.db_connections sid = true
      · have hcs : mapContains st'.session_schemas sid = true := by
          rw [mapContains_iff_mem] at hc ⊢
          rw [← ih]; exact hc
        simp only [delete_session, hc, hcs, if_true]
        simp only [mapKeys_erase]
        rw [ih]
      · simpa [delete_session, hc] using ih

theorem mapContains_false_iff_lookup {α : Type} (m : List (String × α))
    (k : String) : mapContains m k = false ↔ mapLookup m k = none := by
  unfold mapContains
  cases mapLookup m k <;> simp

/-! ## Claims -/

/-- C2: a `connectDB` request whose dbtype, after lowercasing and trimming,
is none of postgresql, mysql, mongodb fails with HTTP 400 whose detail names
the raw declared type and lists the supported set; the registry is left
unchanged, no connection is opened or closed, and the outcome is the same
for any backends whatsoever (no connector is invoked, no network connection
attempted). -/
theorem connectDB_unsupported_type (connection : DatabaseConnection)
    (backends backends2 : Backends) (st : RegState)
    (h1 : pyStrip (pyLower connection.dbtype) ≠ "postgresql")
    (h2 : pyStrip (pyLower connection.dbtype) ≠ "mysql")
    (h3 : pyStrip (pyLower connection.dbtype) ≠ "mongodb") :
    connect_database connection backends st =
      { result := .error ⟨400, "Unsupported database type: \x27"
          ++ connection.dbtype
          ++ "\x27. Supported types are: postgresql, mysql, mongodb"⟩
        state := st, opened := false, closed := false }
    ∧ connect_database connection backends st
        = connect_database connection backends2 st := by
  constructor
  · simp [connect_database, h1, h2, h3]
  · simp [connect_database, h1, h2, h3]

/-- Witness for C2 at the concrete unsupported type `oracle`. -/
theorem connectDB_unsupported_type_witness :
    connect_database
        { host := "dbhost", port := 1521, username := "scott"
          password := "tiger", schema := "orcl", tableNames := []
          dbtype := "oracle" } stubBackends initState =
      { result := .error ⟨400, "Unsupported database type: \x27oracle"
          ++ "\x27. Supported types are: postgresql, mysql, mongodb"⟩
        state := initState, opened := false, closed := false }
    ∧ connect_database
        { host := "dbhost", port := 1521, username := "scott"
          password := "tiger", schema := "orcl", tableNames := []
          dbtype := "oracle" } stubBackends initState
      = connect_database
        { host := "dbhost", port := 1521, username := "scott"
          password := "tiger", schema := "orcl", tableNames := []
          dbtype := "oracle" } okMongoBackends initState :=
  connectDB_unsupported_type _ stubBackends okMongoBackends initState
    (by decide) (by decide) (by decide)

/-- C8: every connector, and the dispatch as a whole, ends each call with the
connection-closed flag equal to the connection-opened flag: on every exit
path (success, backend error, unsupported type) a connection is released iff
one was opened, so no call returns or propagates an error while holding an
open connection. -/
theorem connector_releases_connection (connection : DatabaseConnection)
    (backends : Backends) (st : RegState) :
    (connect_postgresql connection backends.pg st).closed
        = (connect_postgresql connection backends.pg st).opened
    ∧ (connect_mysql connection backends.my st).closed
        = (connect_mysql connection backends.my st).opened
    ∧ (connect_mongodb connection backends.mongo st).closed
        = (connect_mongodb connection backends.mongo st).opened
    ∧ (connect_database connection backends st).closed
        = (connect_database connection backends st).opened := by
  refine ⟨?_, ?_, ?_, ?_⟩
  · rcases connect_postgresql_spec connection backends.pg st
      with ⟨e, bo, h, _⟩ | ⟨ti, h⟩ <;> rw [h]
  · rcases connect_mysql_spec connection backends.my st
      with ⟨e, bo, h, _⟩ | ⟨ti, h⟩ <;> rw [h]
  · rcases connect_mongodb_spec connection backends.mongo st
      with ⟨e, bo, h, _⟩ | ⟨ti, h⟩ <;> rw [h]
  · rcases connect_database_spec connection backends st
      with ⟨e, bo, h⟩ | ⟨r, h, _, _⟩ <;> rw [h]

/-- C7: on a supported dbtype, a `connectDB` call either succeeds, or fails
with a single HTTP 500 error and leaves the registry exactly as it was: no
session entry and no schema entry is created or modified (all-or-nothing;
partial introspection results are discarded). -/
theorem connectDB_all_or_nothing (connection : DatabaseConnection)
    (backends : Backends) (st : RegState)
    (h : pyStrip (pyLower connection.dbtype) = "postgresql"
       ∨ pyStrip (pyLower connection.dbtype) = "mysql"
       ∨ pyStrip (pyLower connection.dbtype) = "mongodb") :
    (∃ r, (connect_database connection backends st).result = .ok r)
    ∨ (∃ e, (connect_database connection backends st).result = .error e
        ∧ e.status_code = 500
        ∧ (connect_database connection backends st).state = st) := by
  have step :
      ∀ res : ConnectorResult,
        ((∃ e bo, res = ⟨.error e, st, bo, bo⟩ ∧ e.status_code = 500)
          → (∃ r, res.result = .ok r)
            ∨ (∃ e, res.result = .error e ∧ e.status_code = 500
                ∧ res.state = st)) := by
    rintro res ⟨e, bo, rfl, h5⟩
    exact Or.inr ⟨e, rfl, h5, rfl⟩
  rcases h with h | h | h
  · have hd : connect_database connection backends st
        = connect_postgresql connection backends.pg st := by
      simp [connect_database, h]
    rw [hd]
    rcases connect_postgresql_spec connection backends.pg st
      with herr | ⟨ti, hok⟩
    · exact step _ herr
    · exact Or.inl ⟨_, by rw [hok]⟩
  · have hd : connect_database connection backends st
        = connect_mysql connection backends.my st := by
      simp [connect_database, h]
    rw [hd]
    rcases connect_mysql_spec connection backends.my st
      with herr | ⟨ti, hok⟩
    · exact step _ herr
    · exact Or.inl ⟨_, by rw [hok]⟩
  · have hd : connect_database connection backends st
        = connect_mongodb connection backends.mongo st := by
      simp [connect_database, h]
    rw [hd]
    rcases connect_mongodb_spec connection backends.mongo st
      with herr | ⟨ti, hok⟩
    · exact step _ herr
    · exact Or.inl ⟨_, by rw [hok]⟩

/-- Witness for C7: a PostgreSQL request against an unreachable backend. -/
theorem connectDB_all_or_nothing_witness :
    (∃ r, (connect_database
        { host := "h", port := 5432, username := "u", password := "p"
          schema := "db", tableNames := [], dbtype := "postgresql" }
        stubBackends oneSessionState).result = .ok r)
    ∨ (∃ e, (connect_database
        { host := "h", port := 5432, username := "u", password := "p"
          schema := "db", tableNames := [], dbtype := "postgresql" }
        stubBackends oneSessionState).result = .error e
        ∧ e.status_code = 500
        ∧ (connect_database
            { host := "h", port := 5432, username := "u", password := "p"
              schema := "db", tableNames := [], dbtype := "postgresql" }
            stubBackends oneSessionState).state = oneSessionState) :=
  connectDB_all_or_nothing _ stubBackends oneSessionState (Or.inl (by decide))

/-- C1: every successful `connectDB` call returns, and stores under, the
session id `host:port:schemaOrDatabaseName`; hence two sequential successful
calls with identical host, port and schema (any credentials) derive the same
session id and the second call's stored connection parameters and schema
silently overwrite the first's. -/
theorem connectDB_sessionId_spec :
    (∀ (c : DatabaseConnection) (b : Backends) (st : RegState)
        (r : ConnectResponse),
      (connect_database c b st).result = .ok r →
      r.session_id = c.host ++ ":" ++ toString c.port ++ ":" ++ c.schema
      ∧ mapLookup (connect_database c b st).state.db_connections r.session_id
          = some c
      ∧ mapLookup (connect_database c b st).state.session_schemas r.session_id
          = some r.schema_info)
    ∧ (∀ (c1 c2 : DatabaseConnection) (b1 b2 : Backends) (st : RegState)
        (r1 r2 : ConnectResponse),
      c1.host = c2.host → c1.port = c2.port → c1.schema = c2.schema →
      (connect_database c1 b1 st).result = .ok r1 →
      (connect_database c2 b2 (connect_database c1 b1 st).state).result
          = .ok r2 →
      r2.session_id = r1.session_id
      ∧ mapLookup (connect_database c2 b2
            (connect_database c1 b1 st).state).state.db_connections
          r1.session_id = some c2
      ∧ mapLookup (connect_database c2 b2
            (connect_database c1 b1 st).state).state.session_schemas
          r1.session_id = some r2.schema_info) := by
  have ha : ∀ (c : DatabaseConnection) (b : Backends) (st : RegState)
      (r : ConnectResponse),
      (connect_database c b st).result = .ok r →
      r.session_id = sessionIdOf c
      ∧ mapLookup (connect_database c b st).state.db_connections r.session_id
          = some c
      ∧ mapLookup (connect_database c b st).state.session_schemas r.session_id
          = some r.schema_info := by
    intro c b st r hok
    rcases connect_database_spec c b st with ⟨e, bo, h⟩ | ⟨r', h, _, hsid⟩
    · rw [h] at hok
      exact absurd hok (by simp)
    · rw [h] at hok
      obtain rfl : r' = r := by simpa using hok
      refine ⟨hsid, ?_, ?_⟩
      · rw [h, hsid]
        exact mapLookup_insert_self _ _ _
      · rw [h, hsid]
        exact mapLookup_insert_self _ _ _
  constructor
  · intro c b st r hok
    simpa [sessionIdOf] using ha c b st r hok
  · intro c1 c2 b1 b2 st r1 r2 hh hp hs h1 h2
    obtain ⟨hid1, _, _⟩ := ha c1 b1 st r1 h1
    obtain ⟨hid2, hl2, hs2⟩ := ha c2 b2 _ r2 h2
    have hsame : sessionIdOf c1 = sessionIdOf c2 := by
      simp [sessionIdOf, hh, hp, hs]
    refine ⟨by rw [hid1, hid2, hsame], ?_, ?_⟩
    · rw [hid1, hsame, ← hid2]
      exact hl2
    · rw [hid1, hsame, ← hid2]
      exact hs2

/-- Witness for C1: two sequential successful MongoDB connects with the same
host/port/schema but different credentials; the second's parameters end up
stored under the shared id. -/
theorem connectDB_sessionId_witness :
    ("localhost:27017:mydb" : String) = "localhost:27017:mydb"
    ∧ mapLookup (connect_database connB okMongoBackends
          (connect_database connA okMongoBackends initState).state).state.db_connections
        "localhost:27017:mydb" = some connB
    ∧ mapLookup (connect_database connB okMongoBackends
          (connect_database connA okMongoBackends initState).state).state.session_schemas
        "localhost:27017:mydb" = some (.flat []) :=
  connectDB_sessionId_spec.2 connA connB okMongoBackends okMongoBackends
    initState ⟨"success", "localhost:27017:mydb", .flat []⟩
    ⟨"success", "localhost:27017:mydb", .flat []⟩ rfl rfl rfl rfl rfl

/-- C9: `DELETE /session/{id}` fails with 404 when the id is absent; when
present it removes both the session record and its schema, so a subsequent
`GET /session/{id}/schema` and a further `DELETE` of the same id both return
404 (no resurrection without a new connect). The key lists of a registry
state representing Python dicts are duplicate-free. -/
theorem deleteSession_spec (sid : String) (st : RegState)
    (hnd1 : (mapKeys st.db_connections).Nodup)
    (hnd2 : (mapKeys st.session_schemas).Nodup) :
    (mapContains st.db_connections sid = false →
      delete_session sid st =
        { result := .error ⟨404, "Session not found"⟩, state := st })
    ∧ (mapContains st.db_connections sid = true →
      (delete_session sid st).result =
          .ok { status := "success"
                message := "Session " ++ sid ++ " deleted successfully" }
      ∧ mapContains (delete_session sid st).state.db_connections sid = false
      ∧ mapContains (delete_session sid st).state.session_schemas sid = false
      ∧ get_session_schema sid (delete_session sid st).state
          = .error ⟨404, "Session not found"⟩
      ∧ (delete_session sid (delete_session sid st).state).result
          = .error ⟨404, "Session not found"⟩) := by
  constructor
  · intro h
    simp [delete_session, h]
  · intro h
    have hdb : (delete_session sid st).state.db_connections
        = mapErase st.db_connections sid := by
      simp [delete_session, h]
    have hcontains :
        mapContains (delete_session sid st).state.db_connections sid = false := by
      rw [hdb]
      exact mapContains_erase_self hnd1
    have hlookup :
        mapLookup (delete_session sid st).state.db_connections sid = none :=
      (mapContains_false_iff_lookup _ _).mp hcontains
    refine ⟨by simp [delete_session, h], hcontains, ?_, ?_, ?_⟩
    · by_cases h2 : mapContains st.session_schemas sid = true
      · have hss : (delete_session sid st).state.session_schemas
            = mapErase st.session_schemas sid := by
          simp [delete_session, h, h2]
        rw [hss]
        exact mapContains_erase_self hnd2
      · have hss : (delete_session sid st).state.session_schemas
            = st.session_schemas := by
          simp [delete_session, h, h2]
        rw [hss]
        simpa using h2
    · unfold get_session_schema
      rw [hlookup]
    · generalize hst : (delete_session sid st).state = st2 at hcontains
      simp [delete_session, hcontains]

/-- Witness for C9 at a one-session registry. -/
theorem deleteSession_witness :
    (delete_session "s1" oneSessionState).result =
        .ok { status := "success"
              message := "Session " ++ "s1" ++ " deleted successfully" }
    ∧ mapContains (delete_session "s1" oneSessionState).state.db_connections
        "s1" = false
    ∧ mapContains (delete_session "s1" oneSessionState).state.session_schemas
        "s1" = false
    ∧ get_session_schema "s1" (delete_session "s1" oneSessionState).state
        = .error ⟨404, "Session not found"⟩
    ∧ (delete_session "s1" (delete_session "s1" oneSessionState).state).result
        = .error ⟨404, "Session not found"⟩ :=
  (deleteSession_spec "s1" oneSessionState (by decide) (by decide)).2 (by decide)

/-- C3: `setsessionSchema` fails with 404 when the session id is not
registered; when it is, a payload in which some table's value is not a list,
or some column entry is not a dict or lacks `column_name`, is rejected with
a 400 whose detail names an offending table (and, in the per-column cases,
the column index) and the registry is unchanged; only a fully well-formed
payload replaces the session's schema. -/
theorem setsessionSchema_validation (sid : String)
    (schema : List (String × JValue)) (st : RegState) :
    (mapContains st.db_connections sid = false →
      set_session_schema sid schema st =
        { result := .error ⟨404,
            "Session not found. Please connect to database first."⟩
          state := st })
    ∧ (mapContains st.db_connections sid = true →
        schemaWellFormed schema = false →
      ∃ e, set_session_schema sid schema st = { result := .error e, state := st }
        ∧ e.status_code = 400
        ∧ ∃ t idx, t ∈ mapKeys schema
          ∧ (e.detail = msgInvalidList t ∨ e.detail = msgInvalidColumn t idx
              ∨ e.detail = msgMissingColumnName t idx))
    ∧ (mapContains st.db_connections sid = true →
        schemaWellFormed schema = true →
      set_session_schema sid schema st =
        { result := .ok { status := "success"
                          message := "Session schema set successfully"
                          session_id := sid
                          tables := mapKeys schema }
          state := { st with session_schemas := mapInsert st.session_schemas sid (.user schema) } }) := by
  refine ⟨?_, ?_, ?_⟩
  · intro h
    simp [set_session_schema, h]
  · intro h hw
    have hne : validateSchema schema ≠ none := by
      rw [Ne, validateSchema_none_iff, hw]
      simp
    cases hv : validateSchema schema with
    | none => exact absurd hv hne
    | some e =>
        obtain ⟨h400, t, idx, hmem, hdet⟩ := validateSchema_some_shape schema e hv
        refine ⟨e, ?_, h400, t, idx, hmem, hdet⟩
        simp [set_session_schema, h, hv]
  · intro h hw
    have hv : validateSchema schema = none := (validateSchema_none_iff schema).mpr hw
    simp [set_session_schema, h, hv]

/-- Witness for C3: on the one-session registry, a payload whose single
column entry lacks `column_name` is rejected with 400, and a well-formed
payload replaces the schema. -/
theorem setsessionSchema_validation_witness :
    (∃ e, set_session_schema "s1"
          [("users", .arr [.obj [("nombre", .str "id")]])] oneSessionState
        = { result := .error e, state := oneSessionState }
      ∧ e.status_code = 400
      ∧ ∃ t idx,
          t ∈ mapKeys [("users", (.arr [.obj [("nombre", .str "id")]] : JValue))]
          ∧ (e.detail = msgInvalidList t ∨ e.detail = msgInvalidColumn t idx
              ∨ e.detail = msgMissingColumnName t idx))
    ∧ set_session_schema "s1"
          [("users", .arr [.obj [("column_name", .str "id")]])] oneSessionState
        = { result := .ok { status := "success"
                            message := "Session schema set successfully"
                            session_id := "s1"
                            tables := mapKeys
                              [("users", (.arr [.obj [("column_name", .str "id")]] : JValue))] }
            state := { oneSessionState with session_schemas := mapInsert oneSessionState.session_schemas "s1" (.user [("users", .arr [.obj [("column_name", .str "id")]])]) } } :=
  ⟨(setsessionSchema_validation "s1"
      [("users", .arr [.obj [("nombre", .str "id")]])] oneSessionState).2.1
      (by decide) (by decide),
   (setsessionSchema_validation "s1"
      [("users", .arr [.obj [("column_name", .str "id")]])] oneSessionState).2.2
      (by decide) (by decide)⟩

/-- C4: after a successful `setsessionSchema`, the session's stored schema is
exactly the submitted mapping (wholesale replacement), so a subsequent
`GET /session/{id}/schema` returns precisely the overridden schema and
nothing of the pre-override schema that was not resubmitted. -/
theorem setsessionSchema_override_get (sid : String)
    (schema : List (String × JValue)) (st : RegState) (r : SetSchemaResponse)
    (h : (set_session_schema sid schema st).result = .ok r) :
    ∃ conn, mapLookup st.db_connections sid = some conn
      ∧ mapLookup (set_session_schema sid schema st).state.session_schemas sid
          = some (.user schema)
      ∧ get_session_schema sid (set_session_schema sid schema st).state
          = .ok { session_id := sid, schema := .user schema
                  conn_dbtype := conn.dbtype, conn_host := conn.host
                  conn_schema := conn.schema } := by
  by_cases hc : mapContains st.db_connections sid = true
  · have hsome : (mapLookup st.db_connections sid).isSome = true := hc
    obtain ⟨conn, hconn⟩ := Option.isSome_iff_exists.mp hsome
    cases hv : validateSchema schema with
    | some e => simp [set_session_schema, hc, hv] at h
    | none =>
        have hstate : (set_session_schema sid schema st).state =
            { st with session_schemas :=
                mapInsert st.session_schemas sid (.user schema) } := by
          simp [set_session_schema, hc, hv]
        refine ⟨conn, hconn, ?_, ?_⟩
        · rw [hstate]
          exact mapLookup_insert_self _ _ _
        · rw [hstate]
          unfold get_session_schema
          simp [hconn, mapLookup_insert_self]
  · simp [set_session_schema, hc] at h

/-- Witness for C4 on the one-session registry: the stored `.flat []` schema
is replaced wholesale by the submitted payload. -/
theorem setsessionSchema_override_get_witness :
    ∃ conn, mapLookup oneSessionState.db_connections "s1" = some conn
      ∧ mapLookup (set_session_schema "s1"
            [("users", .arr [.obj [("column_name", .str "id")]])]
            oneSessionState).state.session_schemas "s1"
          = some (.user [("users", .arr [.obj [("column_name", .str "id")]])])
      ∧ get_session_schema "s1" (set_session_schema "s1"
            [("users", .arr [.obj [("column_name", .str "id")]])]
            oneSessionState).state
          = .ok { session_id := "s1"
                  schema := .user [("users", .arr [.obj [("column_name", .str "id")]])]
                  conn_dbtype := conn.dbtype, conn_host := conn.host
                  conn_schema := conn.schema } :=
  setsessionSchema_override_get "s1"
    [("users", .arr [.obj [("column_name", .str "id")]])] oneSessionState
    { status := "success", message := "Session schema set successfully"
      session_id := "s1", tables := ["users"] } rfl

/-- What the collection loop guarantees on success: one entry per collection
name (appended in order), untouched keys elsewhere, and per collection the
value derived from its single sampled document. -/
theorem mongoCollLoop_spec (c : MongoClientData) (names : List String) :
    ∀ (acc ti : List (String × List ColumnInfo)),
      mongoCollLoop c names acc = .ok ti →
      names.Nodup →
      (∀ n ∈ names, n ∉ mapKeys acc) →
      mapKeys ti = mapKeys acc ++ names
      ∧ (∀ k, k ∉ names → mapLookup ti k = mapLookup acc k)
      ∧ (∀ name ∈ names, ∃ sampleDoc,
          c.findOneResult name = .ok sampleDoc
          ∧ mapLookup ti name = some (match sampleDoc with
              | some doc => mongoColumns doc
              | none => [])) := by
  induction names with
  | nil =>
      intro acc ti h _ _
      obtain rfl : acc = ti := by simpa [mongoCollLoop] using h
      simp
  | cons name rest ih =>
      intro acc ti h hnd hfresh
      rw [List.nodup_cons] at hnd
      have hfreshname : name ∉ mapKeys acc := hfresh name (by simp)
      cases hf : c.findOneResult name with
      | error e =>
          rw [mongoCollLoop, hf] at h
          exact absurd h (by simp)
      | ok sampleDoc =>
          rw [mongoCollLoop, hf] at h
          have hacc' : ∀ (v : List ColumnInfo), ∀ n ∈ rest,
              n ∉ mapKeys (mapInsert acc name v) := by
            intro v n hn
            rw [mapInsert_fresh _ hfreshname]
            simp only [mapKeys, List.map_append, List.mem_append]
            rintro (hmem | hmem)
            · exact hfresh n (by simp [hn]) hmem
            · simp at hmem
              exact hnd.1 (hmem ▸ hn)
          obtain ⟨hkeys, hother, hforall⟩ := ih _ ti h hnd.2 (hacc' _)
          refine ⟨?_, ?_, ?_⟩
          · rw [hkeys, mapInsert_fresh _ hfreshname]
            simp [mapKeys]
          · intro k hk
            simp only [List.mem_cons] at hk
            push_neg at hk
            rw [hother k hk.2]
            exact mapLookup_insert_ne _ _ (fun he => hk.1 he.symm)
          · intro n hn
            rcases List.mem_cons.mp hn with rfl | hn'
            · refine ⟨sampleDoc, hf, ?_⟩
              rw [hother n hnd.1]
              exact mapLookup_insert_self _ _ _
            · exact hforall n hn'

/-- C5: for the MongoDB connector, each collection contributes exactly one
entry to the resulting schema map; a collection without a sample document
maps to an empty column list (a valid result, not an error), and a
collection with a sampled document maps to one column record per key of
that document, with `data_type` the runtime type name of the sampled value,
`is_nullable` always `YES`, and no default value or max length. -/
theorem mongo_schema_normalization (connection : DatabaseConnection)
    (c : MongoClientData) (st : RegState) (r : ConnectResponse)
    (names : List String)
    (hcoll : c.listCollectionsResult = .ok names)
    (hnd : names.Nodup)
    (hok : (connect_mongodb connection (.client c) st).result = .ok r) :
    ∃ ti, r.schema_info = .flat ti
      ∧ mapKeys ti = names
      ∧ ∀ name ∈ names, ∃ sampleDoc,
          c.findOneResult name = .ok sampleDoc
          ∧ (sampleDoc = none → mapLookup ti name = some [])
          ∧ (∀ doc, sampleDoc = some doc →
              mapLookup ti name = some (doc.map fun kv =>
                { column_name := kv.1
                  data_type := kv.2.typeName
                  is_nullable := "YES"
                  default_value := none
                  max_length := none })) := by
  cases hs : c.serverInfoResult with
  | error msg => simp [connect_mongodb, hs] at hok
  | ok u =>
      cases hl : mongoCollLoop c names [] with
      | error msg => simp [connect_mongodb, hs, hcoll, hl] at hok
      | ok ti =>
          obtain rfl : r = ⟨"success", sessionIdOf connection, .flat ti⟩ := by
            have hres : (connect_mongodb connection (.client c) st).result
                = .ok ⟨"success", sessionIdOf connection, .flat ti⟩ := by
              simp [connect_mongodb, hs, hcoll, hl]
            rw [hres] at hok
            exact (Except.ok.inj hok).symm
          obtain ⟨hkeys, hother, hforall⟩ :=
            mongoCollLoop_spec c names [] ti hl hnd (by simp [mapKeys])
          refine ⟨ti, rfl, by simpa [mapKeys] using hkeys, ?_⟩
          intro name hn
          obtain ⟨sampleDoc, hf, hlook⟩ := hforall name hn
          refine ⟨sampleDoc, hf, ?_, ?_⟩
          · rintro rfl
            simpa using hlook
          · rintro doc rfl
            simpa [mongoColumns] using hlook

/-- Witness for C5: one empty collection and one collection with a sampled
three-field document. -/
theorem mongo_schema_normalization_witness :
    ∃ ti, (⟨"success", "localhost:27017:mydb",
        .flat [("emptycoll", []),
               ("people", [⟨"_id", "ObjectId", "YES", none, none⟩,
                           ⟨"a", "int", "YES", none, none⟩,
                           ⟨"b", "str", "YES", none, none⟩])]⟩
        : ConnectResponse).schema_info = .flat ti
      ∧ mapKeys ti = ["emptycoll", "people"]
      ∧ ∀ name ∈ ["emptycoll", "people"], ∃ sampleDoc,
          sampleMongoClient.findOneResult name = .ok sampleDoc
          ∧ (sampleDoc = none → mapLookup ti name = some [])
          ∧ (∀ doc, sampleDoc = some doc →
              mapLookup ti name = some (doc.map fun kv =>
                { column_name := kv.1
                  data_type := kv.2.typeName
                  is_nullable := "YES"
                  default_value := none
                  max_length := none })) :=
  mongo_schema_normalization connA sampleMongoClient initState _
    ["emptycoll", "people"] rfl (by decide) rfl

/-- C6 counterexample: a backend row whose reported default value is the
empty string (a reported default, distinct from NULL) is normalized to an
absent `default_value`, because `str(x) if x else None` tests Python
truthiness, not presence; this refutes that `default_value` is absent
exactly when the backend reports no default. -/
theorem sqlDefault_empty_string_counterexample :
    (normalizeSqlColumns
        [{ column_name := "c", data_type := "text", is_nullable := "YES"
           column_default := some "", character_maximum_length := none }]).map
      (fun c => c.default_value) = [none]
    ∧ (some "" : Option String) ≠ none := by
  constructor
  · decide
  · decide

/-- C6 amended: for the relational normalizer (used verbatim by both the
PostgreSQL and MySQL connectors), columns stay in backend ordinal order with
name, type, nullability and max length carried over per position, and
`default_value` equals the stringified backend default exactly when the
backend reports a truthy (non-NULL, non-empty) default; it is absent when
the backend reports no default or an empty-string default. -/
theorem normalizeSqlColumns_default_spec (rows : List SqlColumnRow) :
    (normalizeSqlColumns rows).length = rows.length
    ∧ ∀ (i : Nat) (row : SqlColumnRow), rows.get? i = some row →
        ∃ c, (normalizeSqlColumns rows).get? i = some c
          ∧ c.column_name = row.column_name
          ∧ c.data_type = row.data_type
          ∧ c.is_nullable = row.is_nullable
          ∧ c.max_length = row.character_maximum_length
          ∧ (∀ d, c.default_value = some d ↔
              (row.column_default = some d ∧ d ≠ ""))
          ∧ (c.default_value = none ↔
              (row.column_default = none ∨ row.column_default = some "")) := by
  constructor
  · simp [normalizeSqlColumns]
  · intro i row hrow
    have hmap : (normalizeSqlColumns rows).get? i
        = some { column_name := row.column_name
                 data_type := row.data_type
                 is_nullable := row.is_nullable
                 default_value := pyStrDefault row.column_default
                 max_length := row.character_maximum_length } := by
      unfold normalizeSqlColumns
      rw [List.get?_map, hrow]
      rfl
    refine ⟨_, hmap, rfl, rfl, rfl, rfl, ?_, ?_⟩
    · intro d
      cases hd : row.column_default with
      | none => simp [pyStrDefault]
      | some s =>
          by_cases hs : s = ""
          · subst hs
            simp [pyStrDefault]
            rintro rfl
            simp
          · simp only [pyStrDefault, if_neg hs]
            constructor
            · intro hsd
              obtain rfl := Option.some.inj hsd
              exact ⟨rfl, hs⟩
            · rintro ⟨hsd, _⟩
              exact hsd
    · cases hd : row.column_default with
      | none => simp [pyStrDefault]
      | some s =>
          by_cases hs : s = ""
          · subst hs
            simp [pyStrDefault]
          · simp [pyStrDefault, hs]

/-- Witness for the amended C6 at a two-row fixture: one empty-string
default, one real default. -/
theorem normalizeSqlColumns_default_witness :
    ∃ c, (normalizeSqlColumns
        [{ column_name := "a", data_type := "integer", is_nullable := "NO"
           column_default := some "0", character_maximum_length := none },
         { column_name := "b", data_type := "text", is_nullable := "YES"
           column_default := some "", character_maximum_length := some 40 }]).get? 0
        = some c
      ∧ c.column_name = "a"
      ∧ c.data_type = "integer"
      ∧ c.is_nullable = "NO"
      ∧ c.max_length = none
      ∧ (∀ d, c.default_value = some d ↔ ((some "0" : Option String) = some d ∧ d ≠ ""))
      ∧ (c.default_value = none ↔
          ((some "0" : Option String) = none ∨ (some "0" : Option String) = some "")) :=
  (normalizeSqlColumns_default_spec
    [{ column_name := "a", data_type := "integer", is_nullable := "NO"
       column_default := some "0", character_maximum_length := none },
     { column_name := "b", data_type := "text", is_nullable := "YES"
       column_default := some "", character_maximum_length := some 40 }]).2 0
    { column_name := "a", data_type := "integer", is_nullable := "NO"
      column_default := some "0", character_maximum_length := none } rfl

/-- C10: in every registry state reachable from the empty initial state via
the public mutating operations, the key list of the connection map equals
the key list of the schema map; consequently `has_schema_defined` is true
for every listed session and the 404 `Session schema not defined` branch of
`GET /session/{id}/schema` is unreachable. -/
theorem registry_invariant (st : RegState) (h : Reachable st) :
    mapKeys st.db_connections = mapKeys st.session_schemas
    ∧ (∀ d ∈ (get_active_sessions st).session_details,
        d.has_schema_defined = true)
    ∧ (∀ sid, get_session_schema sid st
        ≠ .error ⟨404, "Session schema not defined"⟩) := by
  have hkeys := reachable_keys_eq h
  refine ⟨hkeys, ?_, ?_⟩
  · intro d hd
    rw [get_active_sessions] at hd
    obtain ⟨p, hp, hfd⟩ := List.mem_map.mp hd
    rw [← hfd]
    exact (mapContains_iff_mem _ _).mpr
      (hkeys ▸ List.mem_map_of_mem Prod.fst hp)
  · intro sid
    unfold get_session_schema
    cases hl : mapLookup st.db_connections sid with
    | none =>
        intro hcontra
        have : ("Session not found" : String) = "Session schema not defined" := by
          injection Except.error.inj hcontra with h1 h2
        exact absurd this (by decide)
    | some conn =>
        have hmem : sid ∈ mapKeys st.session_schemas := by
          rw [← hkeys]
          exact mem_keys_of_lookup hl
        have hsome : (mapLookup st.session_schemas sid).isSome = true :=
          (mapContains_iff_mem st.session_schemas sid).mpr hmem
        cases hl2 : mapLookup st.session_schemas sid with
        | none => rw [hl2] at hsome; simp at hsome
        | some sch => simp

/-- Witness for C10 at the state reached by one successful connect. -/
theorem registry_invariant_witness :
    mapKeys (connect_database connA okMongoBackends initState).state.db_connections
      = mapKeys (connect_database connA okMongoBackends initState).state.session_schemas
    ∧ (∀ d ∈ (get_active_sessions
          (connect_database connA okMongoBackends initState).state).session_details,
        d.has_schema_defined = true)
    ∧ (∀ sid, get_session_schema sid
          (connect_database connA okMongoBackends initState).state
        ≠ .error ⟨404, "Session schema not defined"⟩) :=
  registry_invariant _ (Reachable.connect connA okMongoBackends initState Reachable.init)

end BotDB
